import Mathlib

/-!
Verification of the session context manager of the chatbot-ui repository
(src/app.py), shallowly embedded in Lean.  Pure helpers are translated as
Lean functions; each Flask handler is translated as a function from the
loaded session state (and the request inputs, with the model-gateway reply
treated as an input) to the state it persists plus its response.  Machine
integers are Nat/Int; Python float arithmetic on exact inputs is modelled
with Rat; Python exceptions are modelled with Except/Option.
-/

namespace ChatbotUI

/-- Byte threshold for storing files on the server instead of inline in the
session record (app.py line 25: 100 KiB). -/
def STORAGE_THRESHOLD : Nat := 100 * 1024

/-- Upload folder name (app.py line 51); os.path.join is modelled as the
slash-separated concatenation. -/
def UPLOAD_FOLDER : String := "uploads"

/-- Per-session configuration (app.py lines 27-33).  The numeric env-var
fallbacks are used for the defaults; the temperature float is modelled as a
rational. -/
structure Config where
  max_tokens : Int
  temperature : Rat
  model_name : String
  context_limit : Int
  api_url : String
  deriving DecidableEq, Repr

/-- DEFAULT_CONFIG (app.py lines 27-33), with every os.getenv fallback. -/
def DEFAULT_CONFIG : Config :=
  { max_tokens := 4000
    temperature := 3 / 10
    model_name := "RedHatAI/Llama-4-Scout-17B-16E-Instruct-FP8-dynamic"
    context_limit := 1000000
    api_url := "http://154.54.100.200:8090/v1/chat/completions" }

/-- DEFAULT_SYSTEM_PROMPT (app.py lines 35-49). -/
def DEFAULT_SYSTEM_PROMPT : String :=
  "You must primarily use and rely only on the information supplied in the context documents. Do NOT provide general knowledge or information unless explicitly asked. In your reasoning and answers, cite or ground everything in the supplied context. Ignore any knowledge from your training that is not present in the context.\n\nCRITICAL RULES:\n1. Answer ONLY based on the context documents provided\n2. ALWAYS cite your source using the format: [Source N: filename]\n3. If information is not in the context, respond: \"I don\x27t have that information in the provided context\"\n4. When quoting, use exact text from the source\n5. If context is ambiguous, state that clearly\n6. You can reference previous messages in the conversation for continuity\n\nCITATION FORMAT:\n- When answering, always include: [Source 1: book.epub] or [Source 2: document.txt]\n- When quoting: \"exact quote here\" [Source 1: book.epub]\n\nYour purpose is to help extract and understand information from the provided documents with proper attribution."

/-- One conversation turn, as the role/content dict of app.py lines 341-342. -/
structure Message where
  role : String
  content : String
  deriving DecidableEq, Repr

/-- One query-history record (app.py lines 346-352). -/
structure QueryRecord where
  timestamp : String
  prompt : String
  prompt_tokens : Nat
  completion_tokens : Nat
  duration : Rat
  deriving DecidableEq, Repr

/-- One uploaded document record, the file_info dict of app.py lines
261-270. -/
structure FileInfo where
  name : String
  content : Option String
  type : String
  added : String
  size : Nat
  tokens : Nat
  stored_on_server : Bool
  server_path : Option String
  deriving DecidableEq, Repr

/-- The full per-session state dict (app.py lines 168-174). -/
structure SessionData where
  context_files : List FileInfo
  conversation_history : List Message
  config : Config
  query_history : List QueryRecord
  system_prompt : String
  deriving DecidableEq, Repr

/-- The fresh default session state returned by load_session_data when no
usable record exists (app.py lines 168-174). -/
def defaultSessionData : SessionData :=
  { context_files := []
    conversation_history := []
    config := DEFAULT_CONFIG
    query_history := []
    system_prompt := DEFAULT_SYSTEM_PROMPT }

/-- Token estimator count_tokens_estimate (app.py lines 70-73): 0 for the
empty text, otherwise integer division of the character length by 4. -/
def count_tokens_estimate (text : String) : Nat :=
  if text = "" then 0 else text.length / 4

/-- Python str.strip on a character list: leading and trailing whitespace
removed. -/
def stripChars (cs : List Char) : List Char :=
  ((cs.dropWhile Char.isWhitespace).reverse.dropWhile Char.isWhitespace).reverse

/-- Python str.strip. -/
def pyStrip (s : String) : String := String.mk (stripChars s.data)

/-- Python str.lower, character by character. -/
def pyLower (s : String) : String := String.mk (s.data.map Char.toLower)

/-- Index of the last dot in a character list, if any. -/
def lastDotIndex (cs : List Char) : Option Nat :=
  (List.range cs.length).foldl
    (fun acc i => if cs.getD i ' ' = '.' then some i else acc) none

/-- The extension part (with its dot) of os.path.splitext applied to a bare
filename: the suffix from the last dot, unless every character before that
dot is itself a dot, in which case there is no extension. -/
def splitextExt (s : String) : String :=
  match lastDotIndex s.data with
  | none => ""
  | some i =>
      if (s.data.take i).all (fun c => c == '.') then ""
      else String.mk (s.data.drop i)

/-- Python f-string rendering of an optional string: None prints as the text
None (app.py line 141 interpolates the content field directly). -/
def pyStr (o : Option String) : String :=
  match o with
  | some s => s
  | none => "None"

/-- Context assembler build_context_section (app.py lines 133-146). -/
def build_context_section (context_files : List FileInfo) : String :=
  if context_files.isEmpty then ""
  else
    let context_parts :=
      ["=== CONTEXT DOCUMENTS ===\n"] ++
      (context_files.enum.map (fun (p : Nat × FileInfo) =>
        ["=== SOURCE " ++ toString (p.1 + 1) ++ ": " ++ p.2.name ++ " ===",
         pyStr p.2.content,
         "=== END SOURCE " ++ toString (p.1 + 1) ++ " ===\n"])).flatten ++
      ["=== END OF CONTEXT DOCUMENTS ===\n"]
    String.intercalate "\n\n" context_parts

/-- Whether pat is a prefix of s, character by character. -/
def isPrefixOfChars : List Char → List Char → Bool
  | [], _ => true
  | _ :: _, [] => false
  | a :: as, b :: bs => a == b && isPrefixOfChars as bs

/-- Number of (possibly overlapping) occurrences of pat inside s. -/
def countOccs (pat : List Char) : List Char → Nat
  | [] => if pat.isEmpty then 1 else 0
  | c :: rest =>
      (if isPrefixOfChars pat (c :: rest) then 1 else 0) + countOccs pat rest

/-- The document record built by the upload handler (app.py lines 257-270):
content size is the UTF-8 byte length, the storage tier is decided by the
100 KiB threshold, exactly one of content and server_path is populated, and
the declared type is the lowered filename extension without its dot (txt
when there is none). -/
def upload_file_info (filename content added : String) : FileInfo :=
  let content_size := content.utf8ByteSize
  let use_server_storage : Bool := decide (content_size > STORAGE_THRESHOLD)
  let filepath := UPLOAD_FOLDER ++ "/" ++ filename
  let ext := splitextExt (pyLower filename)
  { name := filename
    content := if use_server_storage then none else some content
    type := match ext.data with
            | [] => "txt"
            | _ :: cs => String.mk cs
    added := added
    size := content_size
    tokens := count_tokens_estimate content
    stored_on_server := use_server_storage
    server_path := if use_server_storage then some filepath else none }

/-- Upload handler core (app.py lines 246-278), after the HTTP glue: the
filename argument is the secure_filename output, content is the text the
external extractor produced, added is the timestamp string.  The handler
rejects empty or under-ten-character extracted text, otherwise appends the
new record to the session document list and persists; no renaming of any
kind is applied to the filename. -/
def upload_file (filename content added : String) (data : SessionData) :
    Except String (SessionData × FileInfo) :=
  if content = "" ∨ (pyStrip content).length < 10 then
    Except.error "File appears to be empty"
  else
    let file_info := upload_file_info filename content added
    Except.ok
      ({ data with context_files := data.context_files ++ [file_info] },
       file_info)

/-- The conversation history handed to the model gateway for one chat call
(app.py line 329): the ledger when the use-history flag is set, the empty
list otherwise. -/
def chat_sent_history (use_conversation_history : Bool) (data : SessionData) :
    List Message :=
  if use_conversation_history then data.conversation_history else []

/-- Chat handler core (app.py lines 298-366) on the success path; the model
gateway reply and usage numbers are inputs because the HTTP call itself is
external.  The message is stripped and an empty result rejected (line 306).
The working history is the ledger, or the empty list when the use-history
flag is false (line 329); the new user/assistant pair is appended to that
working list (lines 341-342) and the working list is then assigned back to
the session (line 343) before the state is persisted (line 355). -/
def chat (message : String) (use_conversation_history : Bool)
    (assistant_response : String) (prompt_tokens completion_tokens : Nat)
    (timestamp : String) (duration : Rat) (data : SessionData) :
    Except String SessionData :=
  let user_message := pyStrip message
  if user_message = "" then Except.error "Message is empty"
  else
    let conversation_history := chat_sent_history use_conversation_history data
    let conversation_history := conversation_history ++
      [{ role := "user", content := user_message },
       { role := "assistant", content := assistant_response }]
    let query_history := data.query_history ++
      [{ timestamp := timestamp, prompt := user_message,
         prompt_tokens := prompt_tokens,
         completion_tokens := completion_tokens, duration := duration }]
    Except.ok { data with conversation_history := conversation_history,
                          query_history := query_history }

/-- A sequence of successful history-enabled chat calls, each given as a
(message, gateway reply) pair, run left to right. -/
def chatRun (calls : List (String × String)) (data : SessionData) :
    Except String SessionData :=
  match calls with
  | [] => Except.ok data
  | (m, r) :: rest =>
      match chat m true r 0 0 "" 0 data with
      | Except.ok d => chatRun rest d
      | Except.error e => Except.error e

/-- Conversation clear handler (app.py lines 459-465). -/
def clear_conversation (data : SessionData) : SessionData :=
  { data with conversation_history := [] }

/-- Response of the document delete handler. -/
inductive RemoveResult where
  | ok (removed : String)
  | invalid_index
  deriving DecidableEq, Repr

/-- Document delete handler remove_context (app.py lines 396-417): an index
inside [0, len) pops the document and persists, anything else answers the
invalid-index error without saving, so the function returns the state as it
stays persisted together with the response. -/
def remove_context (index : Int) (data : SessionData) :
    SessionData × RemoveResult :=
  if h : 0 ≤ index ∧ index < (data.context_files.length : Int) then
    ({ data with context_files := data.context_files.eraseIdx index.toNat },
     RemoveResult.ok (data.context_files.get ⟨index.toNat, by omega⟩).name)
  else (data, RemoveResult.invalid_index)

/-- One entry of the conversation listing response (app.py lines 444-451). -/
structure ConvEntry where
  index : Nat
  role : String
  content : String
  tokens : Nat
  deriving DecidableEq, Repr

/-- Conversation listing handler get_conversation (app.py lines 438-457):
the entries with their per-message token estimates, the total message count
and the turn count. -/
def get_conversation (data : SessionData) : List ConvEntry × Nat × Nat :=
  (data.conversation_history.enum.map (fun (p : Nat × Message) =>
     { index := p.1, role := p.2.role, content := p.2.content,
       tokens := count_tokens_estimate p.2.content }),
   data.conversation_history.length,
   data.conversation_history.length / 2)

/-- Per-document token contribution in the stats handler (app.py lines
478-483): a server-stored document contributes its stored token count, an
inline one the estimate recomputed from its content field (a missing
content, impossible for records built by upload, would contribute 0 the way
the Python estimator treats None). -/
def statsDocTokens (f : FileInfo) : Nat :=
  if f.stored_on_server then f.tokens
  else
    match f.content with
    | some c => count_tokens_estimate c
    | none => 0

/-- The stats response (app.py lines 488-504); the last four fields are only
present when the query history is nonempty (and the throughput only with a
positive total time). -/
structure Stats where
  context_files : Nat
  context_tokens : Nat
  conversation_turns : Nat
  conversation_tokens : Nat
  total_tokens : Nat
  queries_made : Nat
  context_limit : Int
  percentage_used : Rat
  total_prompt_tokens : Option Nat
  total_completion_tokens : Option Nat
  total_time : Option Rat
  avg_tokens_per_second : Option Rat
  deriving DecidableEq, Repr

/-- Stats handler get_stats (app.py lines 467-506).  Python raises
ZeroDivisionError at line 496 when context_limit is 0; that failure is the
none outcome here. -/
def get_stats (data : SessionData) : Option Stats :=
  let context_tokens := (data.context_files.map statsDocTokens).sum
  let conv_tokens :=
    (data.conversation_history.map
      (fun m => count_tokens_estimate m.content)).sum
  if data.config.context_limit = 0 then none
  else
    let total_time := (data.query_history.map QueryRecord.duration).sum
    some
      { context_files := data.context_files.length
        context_tokens := context_tokens
        conversation_turns := data.conversation_history.length / 2
        conversation_tokens := conv_tokens
        total_tokens := context_tokens + conv_tokens
        queries_made := data.query_history.length
        context_limit := data.config.context_limit
        percentage_used :=
          ((context_tokens + conv_tokens : Nat) : Rat) /
            (data.config.context_limit : Rat) * 100
        total_prompt_tokens :=
          if data.query_history.isEmpty then none
          else some (data.query_history.map QueryRecord.prompt_tokens).sum
        total_completion_tokens :=
          if data.query_history.isEmpty then none
          else some (data.query_history.map QueryRecord.completion_tokens).sum
        total_time :=
          if data.query_history.isEmpty then none else some total_time
        avg_tokens_per_second :=
          if data.query_history.isEmpty then none
          else if 0 < total_time then
            some
              (((data.query_history.map QueryRecord.completion_tokens).sum :
                  Rat) / total_time)
          else none }

/-- A partial configuration update request body (app.py lines 519-524): a
field is some value when the key is present in the request JSON. -/
structure ConfigUpdate where
  max_tokens : Option Int
  temperature : Option Rat
  context_limit : Option Int
  deriving Repr

/-- Config POST handler (app.py lines 508-528): every supplied field is
coerced and stored as-is, with no range validation of any kind, and the
state persisted. -/
def get_or_update_config_post (request_data : ConfigUpdate)
    (data : SessionData) : SessionData × Config :=
  let config := data.config
  let config := match request_data.max_tokens with
                | some v => { config with max_tokens := v }
                | none => config
  let config := match request_data.temperature with
                | some v => { config with temperature := v }
                | none => config
  let config := match request_data.context_limit with
                | some v => { config with context_limit := v }
                | none => config
  ({ data with config := config }, config)

/-- The persisted record backing one session id, as load_session_data can
find it: no file, a file whose pickle.load raises, or a valid record. -/
inductive StoredRecord where
  | absent
  | corrupt
  | valid (data : SessionData)
  deriving Repr

/-- Session load (app.py lines 159-174): a missing file and an unreadable or
undeserializable file are both answered with the fresh default state; the
read failure is swallowed by the bare except and never reported. -/
def load_session_data : StoredRecord → SessionData
  | StoredRecord.valid d => d
  | _ => defaultSessionData

/-- One filesystem operation, to record what save_session_data does to the
session store. -/
inductive FsOp where
  | openWrite (path : String)
  | writeData (path : String) (payload : SessionData)
  | rename (src : String) (dst : String)
  deriving DecidableEq, Repr

/-- Save handler save_session_data (app.py lines 176-180) as the sequence of
file operations it performs: open(session_file, wb-mode) truncates the
target in place, then pickle.dump writes the payload into it.  No temporary
file and no rename are involved. -/
def save_session_data_trace (session_file : String) (data : SessionData) :
    List FsOp :=
  [FsOp.openWrite session_file, FsOp.writeData session_file data]

/-- Modelled from the spec: the write-to-temp-then-rename atomicity section
4.5 requires of save — some distinct temporary path is renamed onto the
target, and the target itself is never opened for direct writing. -/
def usesAtomicSwapB (trace : List FsOp) (target : String) : Bool :=
  (trace.any (fun op =>
     match op with
     | FsOp.rename src dst => dst == target && src != target
     | _ => false)) &&
  !(trace.any (fun op =>
     match op with
     | FsOp.openWrite p => p == target
     | _ => false))

/-- Boolean pairwise distinctness of a list of strings. -/
def listNodupB : List String → Bool
  | [] => true
  | x :: xs => !(xs.contains x) && listNodupB xs

/-- A short extracted text that passes the ten-character minimum and stays
far below the storage threshold. -/
def sampleText : String := "0123456789abcdef"

/-- The record upload builds for sampleText under the name a.txt. -/
def sampleFi : FileInfo :=
  { name := "a.txt", content := some sampleText, type := "txt",
    added := "t1", size := 16, tokens := 4,
    stored_on_server := false, server_path := none }

/-- The same record with the second upload timestamp. -/
def sampleFi2 : FileInfo := { sampleFi with added := "t2" }

/-- The session after uploading sampleText as a.txt into the default
session. -/
def sampleD1 : SessionData :=
  { defaultSessionData with context_files := [sampleFi] }

/-- The session after uploading a.txt twice. -/
def sampleD2 : SessionData :=
  { defaultSessionData with context_files := [sampleFi, sampleFi2] }

/-- The document of the assembler test case of the spec. -/
def docTxtFile : FileInfo :=
  { name := "doc.txt", content := some "hello", type := "txt",
    added := "2024-01-01 00:00:00", size := 5, tokens := 1,
    stored_on_server := false, server_path := none }

/-- A session whose ledger already holds one user/assistant pair. -/
def priorPairData : SessionData :=
  { defaultSessionData with
      conversation_history :=
        [{ role := "user", content := "q0" },
         { role := "assistant", content := "r0" }] }

/-- The session a single history-enabled chat call (message hi, reply yo)
produces from the default state. -/
def oneChatData : SessionData :=
  { defaultSessionData with
      conversation_history :=
        [{ role := "user", content := "hi" },
         { role := "assistant", content := "yo" }],
      query_history :=
        [{ timestamp := "", prompt := "hi", prompt_tokens := 0,
           completion_tokens := 0, duration := 0 }] }

/-- A conversation-listing entry used as a concrete instance. -/
def convEntryExample : ConvEntry :=
  { index := 0, role := "user", content := "q0", tokens := 0 }

/-- A config update that only sets the context limit to zero. -/
def zeroLimitUpdate : ConfigUpdate :=
  { max_tokens := none, temperature := none, context_limit := some 0 }

/-- The session produced by two uploads of a.txt into the default session,
with both branches of the Except results spelled out. -/
def doubleUploadData : SessionData :=
  match upload_file "a.txt" sampleText "t1" defaultSessionData with
  | Except.ok (d1, _) =>
      match upload_file "a.txt" sampleText "t2" d1 with
      | Except.ok (d2, _) => d2
      | Except.error _ => d1
  | Except.error _ => defaultSessionData

/-- Successful upload calls append exactly the record upload_file_info
builds and leave everything else of the state unchanged. -/
theorem upload_file_ok (filename content added : String)
    (data d : SessionData) (fi : FileInfo)
    (h : upload_file filename content added data = Except.ok (d, fi)) :
    fi = upload_file_info filename content added ∧
    d = { data with context_files := data.context_files ++ [fi] } := by
  unfold upload_file at h
  split at h
  · cases h
  · simp only [Except.ok.injEq, Prod.mk.injEq] at h
    obtain ⟨hd, hfi⟩ := h
    subst hfi
    exact ⟨rfl, hd.symm⟩

/-- Successful chat calls persist the working history (the ledger when the
flag is set, the empty list otherwise) with exactly the new user/assistant
pair appended, and append one query record. -/
theorem chat_ok (message : String) (useHist : Bool) (reply : String)
    (pt ct : Nat) (ts : String) (dur : Rat) (data d : SessionData)
    (h : chat message useHist reply pt ct ts dur data = Except.ok d) :
    d.conversation_history =
      chat_sent_history useHist data ++
        [{ role := "user", content := pyStrip message },
         { role := "assistant", content := reply }] ∧
    d.query_history = data.query_history ++
        [{ timestamp := ts, prompt := pyStrip message, prompt_tokens := pt,
           completion_tokens := ct, duration := dur }] ∧
    d.context_files = data.context_files ∧
    d.config = data.config ∧
    d.system_prompt = data.system_prompt := by
  unfold chat at h
  dsimp only at h
  split at h
  · cases h
  · simp only [Except.ok.injEq] at h
    subst h
    exact ⟨rfl, rfl, rfl, rfl, rfl⟩

/-- C1: the use-history opt-out is NOT mutation-free on the persisted
ledger.  On a session whose ledger already holds the q0/r0 pair, a
successful chat call with the flag false does send the empty history to the
gateway, but then persists a ledger holding only the new hi/ok pair: the
prior turns are dropped instead of being kept with the pair appended. -/
theorem c1_opt_out_wipes_ledger :
    chat_sent_history false priorPairData = [] ∧
    chat "hi" false "ok" 7 5 "t" 0 priorPairData =
      Except.ok
        { priorPairData with
            conversation_history :=
              [{ role := "user", content := "hi" },
               { role := "assistant", content := "ok" }],
            query_history :=
              [{ timestamp := "t", prompt := "hi", prompt_tokens := 7,
                 completion_tokens := 5, duration := 0 }] } := by
  constructor
  · rfl
  · rfl

/-- C2: the config POST handler accepts a context limit of 0 with no
validation, and the stats handler on the resulting session state hits the
zero denominator (the none outcome standing for the ZeroDivisionError
Python raises at app.py line 496). -/
theorem c2_zero_limit_accepted :
    (get_or_update_config_post zeroLimitUpdate
        defaultSessionData).2.context_limit = 0 ∧
    get_stats (get_or_update_config_post zeroLimitUpdate
        defaultSessionData).1 = none := by
  constructor
  · rfl
  · rfl

/-- C3: counterexample to per-session name uniqueness.  Uploading a.txt
twice into a fresh session leaves two documents both named a.txt: no
collision renaming happens and the names are not pairwise distinct. -/
theorem c3_names_collide :
    doubleUploadData.context_files.map FileInfo.name = ["a.txt", "a.txt"] ∧
    listNodupB (doubleUploadData.context_files.map FileInfo.name) = false := by
  constructor
  · rfl
  · rfl

/-- C3 amended: upload never renames.  Two successful uploads under the same
sanitized filename append two records that both carry that exact name, in
order, and when both land in the external tier their server paths are the
same uploads/<name> location. -/
theorem c3_no_collision_rename (filename c1 c2 t1 t2 : String)
    (data d1 d2 : SessionData) (f1 f2 : FileInfo)
    (h1 : upload_file filename c1 t1 data = Except.ok (d1, f1))
    (h2 : upload_file filename c2 t2 d1 = Except.ok (d2, f2)) :
    f1.name = filename ∧ f2.name = filename ∧
    d2.context_files = data.context_files ++ [f1, f2] ∧
    (f1.stored_on_server = true → f2.stored_on_server = true →
      f1.server_path = some (UPLOAD_FOLDER ++ "/" ++ filename) ∧
      f2.server_path = some (UPLOAD_FOLDER ++ "/" ++ filename)) := by
  obtain ⟨hf1, hd1⟩ := upload_file_ok _ _ _ _ _ _ h1
  obtain ⟨hf2, hd2⟩ := upload_file_ok _ _ _ _ _ _ h2
  subst hf1 hf2 hd1 hd2
  refine ⟨rfl, rfl, by simp, ?_⟩
  intro hs1 hs2
  constructor
  · simp only [upload_file_info] at hs1 ⊢
    rw [hs1]
    simp
  · simp only [upload_file_info] at hs2 ⊢
    rw [hs2]
    simp

/-- C3 amended, witness: the two concrete uploads of a.txt. -/
theorem c3_no_collision_rename_witness :
    sampleFi.name = "a.txt" ∧ sampleFi2.name = "a.txt" ∧
    sampleD2.context_files =
      defaultSessionData.context_files ++ [sampleFi, sampleFi2] ∧
    (sampleFi.stored_on_server = true → sampleFi2.stored_on_server = true →
      sampleFi.server_path = some (UPLOAD_FOLDER ++ "/" ++ "a.txt") ∧
      sampleFi2.server_path = some (UPLOAD_FOLDER ++ "/" ++ "a.txt")) :=
  c3_no_collision_rename "a.txt" sampleText sampleText "t1" "t2"
    defaultSessionData sampleD1 sampleD2 sampleFi sampleFi2 rfl rfl

/-- C4: upload tiering at the fixed 100 KiB threshold on the UTF-8 byte
length of the extracted text: at most the threshold gives the inline tier
with the text embedded and no storage reference, above it the external tier
with only the uploads/<name> reference, and in every case exactly one of
the two fields is populated. -/
theorem c4_upload_tiering (filename content added : String)
    (data d : SessionData) (fi : FileInfo)
    (h : upload_file filename content added data = Except.ok (d, fi)) :
    (content.utf8ByteSize ≤ STORAGE_THRESHOLD →
       fi.stored_on_server = false ∧ fi.content = some content ∧
       fi.server_path = none) ∧
    (STORAGE_THRESHOLD < content.utf8ByteSize →
       fi.stored_on_server = true ∧ fi.content = none ∧
       fi.server_path = some (UPLOAD_FOLDER ++ "/" ++ filename)) ∧
    ((fi.content.isSome = true ∧ fi.server_path = none) ∨
     (fi.content = none ∧ fi.server_path.isSome = true)) := by
  obtain ⟨hfi, -⟩ := upload_file_ok _ _ _ _ _ _ h
  subst hfi
  by_cases hs : STORAGE_THRESHOLD < content.utf8ByteSize
  · refine ⟨fun hle => absurd hs (by omega), fun _ => ?_, ?_⟩
    · simp [upload_file_info, hs]
    · right
      simp [upload_file_info, hs]
  · refine ⟨fun _ => ?_, fun hlt => absurd hlt hs, ?_⟩
    · simp [upload_file_info, hs]
    · left
      simp [upload_file_info, hs]

/-- C4 witness: the concrete 16-byte upload of a.txt lands in the inline
tier with its text embedded and no server path. -/
theorem c4_upload_tiering_witness :
    sampleFi.stored_on_server = false ∧ sampleFi.content = some sampleText ∧
    sampleFi.server_path = none :=
  (c4_upload_tiering "a.txt" sampleText "t1" defaultSessionData sampleD1
      sampleFi rfl).1 (by decide)

/-- C5: the ledger pairing discipline.  A successful chat call persists the
working history with exactly the user/assistant pair appended, so an even
ledger length stays even through every successful chat call (with either
history flag); a run of N successful history-enabled calls from the default
empty ledger leaves length exactly 2N; clear_conversation resets the length
to 0. -/
theorem c5_ledger_pairing :
    (∀ message useHist reply pt ct ts dur
        (data d : SessionData),
       data.conversation_history.length % 2 = 0 →
       chat message useHist reply pt ct ts dur data = Except.ok d →
       d.conversation_history.length % 2 = 0) ∧
    (∀ (calls : List (String × String)) (data d : SessionData),
       chatRun calls data = Except.ok d →
       d.conversation_history.length =
         data.conversation_history.length + 2 * calls.length) ∧
    (∀ (calls : List (String × String)) (d : SessionData),
       chatRun calls defaultSessionData = Except.ok d →
       d.conversation_history.length = 2 * calls.length) ∧
    (∀ data : SessionData,
       (clear_conversation data).conversation_history.length = 0) := by
  have hrun : ∀ (calls : List (String × String)) (data d : SessionData),
      chatRun calls data = Except.ok d →
      d.conversation_history.length =
        data.conversation_history.length + 2 * calls.length := by
    intro calls
    induction calls with
    | nil =>
        intro data d h
        simp only [chatRun, Except.ok.injEq] at h
        subst h
        simp
    | cons c rest ih =>
        intro data d h
        obtain ⟨m, r⟩ := c
        simp only [chatRun] at h
        cases hc : chat m true r 0 0 "" 0 data with
        | error e => rw [hc] at h; cases h
        | ok d1 =>
            rw [hc] at h
            have hlen := (chat_ok _ _ _ _ _ _ _ _ _ hc).1
            have hrest := ih d1 d h
            rw [hrest, hlen]
            simp [chat_sent_history]
            ring
  refine ⟨?_, hrun, ?_, ?_⟩
  · intro m useHist r pt ct ts dur data d hev h
    have hlen := (chat_ok _ _ _ _ _ _ _ _ _ h).1
    rw [hlen]
    cases useHist with
    | true => simp [chat_sent_history]; omega
    | false => simp [chat_sent_history]
  · intro calls d h
    have := hrun calls defaultSessionData d h
    simpa [defaultSessionData] using this
  · intro data
    rfl

/-- C5 witness: one concrete history-enabled call from the default state
keeps the length even and gives length 2 times 1, and a concrete clear
gives 0. -/
theorem c5_ledger_pairing_witness :
    oneChatData.conversation_history.length % 2 = 0 ∧
    oneChatData.conversation_history.length = 2 * 1 ∧
    (clear_conversation priorPairData).conversation_history.length = 0 :=
  ⟨c5_ledger_pairing.1 "hi" true "yo" 0 0 "" 0 defaultSessionData
      oneChatData (by decide) rfl,
   by
     have := c5_ledger_pairing.2.2.1 [("hi", "yo")] oneChatData rfl
     simpa using this,
   c5_ledger_pairing.2.2.2 priorPairData⟩

/-- C6: counterexample to atomic write-to-temp-then-rename persistence.  The
trace of file operations save_session_data performs for a concrete session
file and payload opens the target for writing directly and contains no
rename, so the atomic-swap property the claim asserts does not hold of it. -/
theorem c6_no_atomic_swap :
    usesAtomicSwapB
      (save_session_data_trace "sessions/abc.pkl" defaultSessionData)
      "sessions/abc.pkl" = false := by
  rfl

/-- C6 amended: save_session_data persists by overwriting the session file
in place — for every path and payload its trace opens the target for
writing and performs no rename at all, so the write-to-temp-then-rename
guarantee is absent and a save failing part-way can leave a truncated
record. -/
theorem c6_save_overwrites_in_place (session_file : String)
    (data : SessionData) :
    FsOp.openWrite session_file ∈ save_session_data_trace session_file data ∧
    ((save_session_data_trace session_file data).any (fun op =>
        match op with
        | FsOp.rename _ _ => true
        | _ => false)) = false ∧
    usesAtomicSwapB (save_session_data_trace session_file data)
        session_file = false := by
  refine ⟨?_, rfl, rfl⟩
  simp [save_session_data_trace]

/-- C7: one token estimator everywhere.  The estimator equals
max(0, floor(length / 4)) with 0 on the empty text, the upload-time token
field is the estimate of the extracted text, every conversation-listing
entry carries the estimate of its own content, and the per-document stats
contribution of a freshly uploaded document equals the estimate of the
uploaded text in both the inline and the external tier. -/
theorem c7_single_token_estimator :
    (∀ t : String, count_tokens_estimate t = max 0 (t.length / 4)) ∧
    count_tokens_estimate "" = 0 ∧
    (∀ (filename c added : String) (data d : SessionData) (fi : FileInfo),
       upload_file filename c added data = Except.ok (d, fi) →
       fi.tokens = count_tokens_estimate c) ∧
    (∀ (data : SessionData) (e : ConvEntry),
       e ∈ (get_conversation data).1 →
       e.tokens = count_tokens_estimate e.content) ∧
    (∀ (filename c added : String) (data d : SessionData) (fi : FileInfo),
       upload_file filename c added data = Except.ok (d, fi) →
       statsDocTokens fi = count_tokens_estimate c) := by
  refine ⟨?_, rfl, ?_, ?_, ?_⟩
  · intro t
    by_cases h : t = ""
    · subst h
      rfl
    · simp [count_tokens_estimate, h]
  · intro filename c added data d fi h
    obtain ⟨hfi, -⟩ := upload_file_ok _ _ _ _ _ _ h
    subst hfi
    rfl
  · intro data e he
    simp only [get_conversation, List.mem_map] at he
    obtain ⟨p, -, hp⟩ := he
    subst hp
    rfl
  · intro filename c added data d fi h
    obtain ⟨hfi, -⟩ := upload_file_ok _ _ _ _ _ _ h
    subst hfi
    by_cases hs : STORAGE_THRESHOLD < c.utf8ByteSize
    · simp [upload_file_info, statsDocTokens, hs]
    · simp [upload_file_info, statsDocTokens, hs]

/-- C7 witness: the concrete a.txt upload and a concrete conversation
entry. -/
theorem c7_single_token_estimator_witness :
    sampleFi.tokens = count_tokens_estimate sampleText ∧
    convEntryExample.tokens = count_tokens_estimate convEntryExample.content ∧
    statsDocTokens sampleFi = count_tokens_estimate sampleText :=
  ⟨c7_single_token_estimator.2.2.1 "a.txt" sampleText "t1" defaultSessionData
      sampleD1 sampleFi rfl,
   c7_single_token_estimator.2.2.2.1 priorPairData convEntryExample
     (by decide),
   c7_single_token_estimator.2.2.2.2 "a.txt" sampleText "t1"
     defaultSessionData sampleD1 sampleFi rfl⟩

/-- C8: the assembler on zero documents is exactly the empty string; on the
single document doc.txt with content hello the output contains the
SOURCE 1: doc.txt header, the text hello and the END SOURCE 1 footer, and
it contains the opening and the closing marker exactly once each. -/
theorem c8_assembler_markers :
    build_context_section [] = "" ∧
    (let out := build_context_section [docTxtFile]
     0 < countOccs ("SOURCE 1: doc.txt").data out.data ∧
     0 < countOccs ("hello").data out.data ∧
     0 < countOccs ("END SOURCE 1").data out.data ∧
     countOccs ("=== CONTEXT DOCUMENTS ===").data out.data = 1 ∧
     countOccs ("=== END OF CONTEXT DOCUMENTS ===").data out.data = 1) := by
  constructor
  · rfl
  · decide

/-- C9: a delete request whose index is outside [0, number of documents)
answers the invalid-index error and the session state stays exactly as
loaded, so the persisted document set keeps its length and contents. -/
theorem c9_remove_out_of_range (index : Int) (data : SessionData)
    (h : index < 0 ∨ (data.context_files.length : Int) ≤ index) :
    remove_context index data = (data, RemoveResult.invalid_index) := by
  have hc : ¬ (0 ≤ index ∧ index < (data.context_files.length : Int)) := by
    omega
  simp [remove_context, hc]

/-- C9 witness: deleting index 3 of the empty default document set. -/
theorem c9_remove_out_of_range_witness :
    remove_context 3 defaultSessionData =
      (defaultSessionData, RemoveResult.invalid_index) :=
  c9_remove_out_of_range 3 defaultSessionData (by decide)

/-- C10: session load answers the fresh default state both when no record
exists and when the stored record cannot be read back, and that default
state has the empty document set, the empty ledger, the default
configuration, the empty query history and the default system prompt; the
load has no error outcome at all, so the failure never surfaces. -/
theorem c10_load_swallows_corrupt :
    load_session_data StoredRecord.absent = defaultSessionData ∧
    load_session_data StoredRecord.corrupt = defaultSessionData ∧
    defaultSessionData.context_files = [] ∧
    defaultSessionData.conversation_history = [] ∧
    defaultSessionData.config = DEFAULT_CONFIG ∧
    defaultSessionData.query_history = [] ∧
    defaultSessionData.system_prompt = DEFAULT_SYSTEM_PROMPT :=
  ⟨rfl, rfl, rfl, rfl, rfl, rfl, rfl⟩

end ChatbotUI
